import Mathlib

/-!
Shallow embedding of `check_opnsense.py` (version 0.2.0), a monitoring
check plugin for OPNsense firewalls.  The script performs one API
request (two in updates mode when a refresh is triggered), classifies
the JSON payload into a severity, and prints a single line
`"{SEVERITY} - {message}{perfdata}"` before exiting with the severity's
numeric value.

Modelling conventions:
* Python dictionaries with string values are association lists
  (`Dict`); `d["k"]` (which raises `KeyError` when absent) is modelled
  by propagating `Option.none` through the classifier, while
  `d.get("k")` is an ordinary `Option`-valued lookup.
* A classifier that can crash (KeyError / RuntimeError) returns
  `Option`; `none` means the run aborted without printing a verdict.
* The terminal `output` call is modelled as the pair
  (printed line, process exit code).
* `requests` exceptions and HTTP error statuses are modelled by the
  explicit `ReqError` type and by the numeric status code.
-/

/-- `class CheckState(Enum)` — check return values (source lines 46-52). -/
inductive CheckState where
  | OK
  | WARNING
  | CRITICAL
  | UNKNOWN
deriving DecidableEq

/-- `CheckState(...).value`: the numeric value of each enum member. -/
def CheckState.value : CheckState → Nat
  | .OK => 0
  | .WARNING => 1
  | .CRITICAL => 2
  | .UNKNOWN => 3

/-- `CheckState(...).name`: the name of each enum member. -/
def CheckState.name : CheckState → String
  | .OK => "OK"
  | .WARNING => "WARNING"
  | .CRITICAL => "CRITICAL"
  | .UNKNOWN => "UNKNOWN"

/-- `CheckOPNsense.output(rc, message)` (lines 69-74): prints
`f"{rc.name} - {message}"` and exits with `rc.value`.  Modelled as the
pair (stdout line, exit status). -/
def output (rc : CheckState) (message : String) : String × Nat :=
  (CheckState.name rc ++ " - " ++ message, CheckState.value rc)

/-- `CheckOPNsense.get_perfdata(self)` (lines 127-135): `"|"` followed by
the space-joined perfdata entries, or `""` when there are none. -/
def get_perfdata (perfdata : List String) : String :=
  if perfdata.isEmpty then "" else "|" ++ String.intercalate " " perfdata

/-- `CheckOPNsense.check_output(self)` (lines 61-67): appends the
perfdata to the check message and calls `output`. -/
def check_output (check_result : CheckState) (check_message : String)
    (perfdata : List String) : String × Nat :=
  output check_result
    (if perfdata.isEmpty then check_message else check_message ++ get_perfdata perfdata)

/-- Python dict with string keys and string values (the updates-mode
payload shape). -/
abbrev Dict := List (String × String)

/-- Dictionary lookup: `d.get(k)` returns `none` when the key is
absent; a use of `d[k]` in the source is this lookup with the `none`
case propagated as an abort (KeyError). -/
def dget (d : Dict) (k : String) : Option String :=
  (d.find? (fun p => p.fst == k)).map Prod.snd

/-- The single-quote character `'`, used in perfdata labels and in the
(un-interpolated) services message literal. -/
def squote : String := String.singleton (Char.ofNat 39)

/-- The three `requests` exceptions caught in
`CheckOPNsense.request` (lines 102-111), in the order of the
`except` clauses. -/
inductive ReqError where
  | connectTimeout
  | sslError
  | connectionError
deriving DecidableEq

/-- The `except` handlers of `CheckOPNsense.request` (lines 102-111):
each exception is terminal, calling `output` with `UNKNOWN` and a
descriptive message; there is no retry. -/
def exceptionOutput : ReqError → CheckState × String
  | .connectTimeout =>
      (CheckState.UNKNOWN, "Could not connect to OPNsense: Connection timeout")
  | .sslError =>
      (CheckState.UNKNOWN, "Could not connect to OPNsense: Certificate validation failed")
  | .connectionError =>
      (CheckState.UNKNOWN, "Could not connect to OPNsense: Failed to resolve hostname")

/-- `response.ok` of the `requests` library: true when the HTTP status
code is below 400. -/
def response_ok (status : Nat) : Bool := status < 400

/-- The non-`ok` branch of `CheckOPNsense.request` (lines 113-125):
builds the error message by status code and terminates with
`UNKNOWN`.  The strings are exactly the source's literals. -/
def httpErrorOutput (status : Nat) : CheckState × String :=
  (CheckState.UNKNOWN,
    "Could not fetch data from API: " ++
      (if status = 401 then
        "Could not connection to OPNsense: invalid username or password"
      else if status = 403 then
        "Access denied. Please check if API user has sufficient permissions."
      else
        "HTTP error code was " ++ toString status))

/-- `CheckOPNsense.request` (lines 80-125) after a response with the
given status code arrived: the JSON body on a 2xx/3xx status,
otherwise the terminal `UNKNOWN` output. -/
def requestResult {α : Type} (status : Nat) (body : α) :
    Except (CheckState × String) α :=
  if response_ok status then Except.ok body else Except.error (httpErrorOutput status)

/-- Substring test over the underlying character lists (used to state
"the message contains ..." claims). -/
def isSubstr (pat s : String) : Bool :=
  (List.range (s.data.length + 1)).any (fun i => pat.data.isPrefixOf (s.data.drop i))

/-! ## Updates mode (`CheckOPNsense.check_updates`, lines 213-231) -/

/-- Lines 221-231 of `check_updates`, run on the effective payload
`data` (the first response, or the refreshed one when the first said
`"none"`).  `reqs` records the HTTP methods issued so far.
`data["status"]` and `data["status_msg"]` raise `KeyError` when absent
(`none` result); `data.get("status_reboot")` does not.  On an update
the result is `WARNING` (escalated to `CRITICAL` when
`status_reboot == "1"`) with `status_msg` as message; otherwise the
`check_result` set by `check` (line 139) stays `OK` and the message is
`"System up to date"`. -/
def classify_updates (reqs : List String) (data : Dict) :
    Option (List String × CheckState × String) :=
  match dget data "status" with
  | none => none
  | some s =>
    let has_update := s == "update" || s == "upgrade"
    let needs_reboot := dget data "status_reboot" == some "1"
    if has_update then
      match dget data "status_msg" with
      | none => none
      | some msg =>
        some (reqs, (if needs_reboot then CheckState.CRITICAL else CheckState.WARNING), msg)
    else
      some (reqs, CheckState.OK, "System up to date")

/-- `check_updates` (lines 213-231): a GET of `core/firmware/status`;
when its payload's `status` is `"none"`, one POST to the same endpoint
whose payload replaces the first.  The result records the methods
issued together with the final `(check_result, check_message)`. -/
def check_updates (first refreshed : Dict) :
    Option (List String × CheckState × String) :=
  match dget first "status" with
  | none => none
  | some s0 =>
    if s0 = "none" then classify_updates ["get", "post"] refreshed
    else classify_updates ["get"] first

/-- The `(check_result, check_message)` part of a `check_updates` run. -/
def check_updates_verdict (first refreshed : Dict) : Option (CheckState × String) :=
  (check_updates first refreshed).map Prod.snd

/-! ## System mode (`CheckOPNsense.check_system`, lines 233-251) -/

/-- One subsystem entry of the `core/system/status` payload:
a `status` string and an optional `message`. -/
structure SubEntry where
  status : String
  message : Option String
deriving DecidableEq

/-- The `status` dict literal of `check_system` (lines 238-243), looked
up at the payload's `System.status`; an unmapped string raises
`KeyError` (`none`). -/
def systemStatusMap (s : String) : Option CheckState :=
  if s = "OK" then some CheckState.OK
  else if s = "Notice" then some CheckState.OK
  else if s = "Warning" then some CheckState.WARNING
  else if s = "Error" then some CheckState.CRITICAL
  else none

/-- Line 246-249: `", ".join(sec['message'] for sec in data.values()
if 'message' in sec and sec['status'] != 'OK')`. -/
def joinNotOkMessages (data : List (String × SubEntry)) : String :=
  String.intercalate ", "
    ((data.map Prod.snd).filterMap (fun sec =>
      match sec.message with
      | some m => if sec.status ≠ "OK" then some m else none
      | none => none))

/-- `check_system` (lines 233-251).  Note the source's line 244 writes
the mapped `CheckState` into `self.check_message` (not
`self.check_result`) and both following branches overwrite
`check_message`, so the lookup only contributes its possible
`KeyError`; `check_result` keeps the `OK` set by `check` (line 139). -/
def check_system (data : List (String × SubEntry)) : Option (CheckState × String) :=
  match (data.find? (fun p => p.fst == "System")).map Prod.snd with
  | none => none
  | some sysEntry =>
    match systemStatusMap sysEntry.status with
    | none => none
    | some _discarded =>
      if sysEntry.status ≠ "OK" then
        some (CheckState.OK, joinNotOkMessages data)
      else
        some (CheckState.OK, "No problems were detected.")

/-! ## Services mode (`CheckOPNsense.check_services`, lines 253-276) -/

/-- One row of the `core/service/search` payload. -/
structure ServiceRow where
  name : String
  running : Int
deriving DecidableEq

/-- The names of the rows with `running == 1` (lines 258-265). -/
def running_names (rows : List ServiceRow) : List String :=
  (rows.filter (fun r => r.running == 1)).map ServiceRow.name

/-- The names of the rows with `running != 1` (lines 258-265). -/
def not_running_names (rows : List ServiceRow) : List String :=
  (rows.filter (fun r => !(r.running == 1))).map ServiceRow.name

/-- Line 274's message.  The source string lacks the `f` prefix, so the
brace expression is NOT interpolated: the literal printed is
`Services not running: {', '.join(not_running)}`. -/
def services_not_running_msg : String :=
  "Services not running: \x7b" ++ squote ++ ", " ++ squote ++ ".join(not_running)\x7d"

/-- Line 270's perfdata entry
`f"'running'={len(running)};;;0;{data['total']}"`. -/
def services_perf_entry (value : Nat) (total : Int) : String :=
  squote ++ "running" ++ squote ++ "=" ++ toString value ++ ";;;0;" ++ toString total

/-- `check_services` (lines 253-276): partition the rows, raise
`RuntimeError` (modelled `none`: the run aborts with no verdict line)
when the partition sizes do not sum to `total`, append one perfdata
entry, and set `(check_result, check_message)` — `WARNING` with the
(buggy, un-interpolated) message when some service is not running,
otherwise the orchestrator's `OK` with `"All services are running"`. -/
def check_services (total : Int) (rows : List ServiceRow) :
    Option (CheckState × String × List String) :=
  let running := running_names rows
  let not_running := not_running_names rows
  if ((running.length + not_running.length : Nat) : Int) ≠ total then
    none
  else
    let perfdata := [services_perf_entry running.length total]
    if !not_running.isEmpty then
      some (CheckState.WARNING, services_not_running_msg, perfdata)
    else
      some (CheckState.OK, "All services are running", perfdata)

/-! ## Helper lemmas -/

lemma classify_updates_reqs (reqs : List String) (data : Dict)
    (r : List String × CheckState × String)
    (h : classify_updates reqs data = some r) : r.fst = reqs := by
  unfold classify_updates at h
  split at h
  · exact absurd h (by simp)
  · simp only at h
    split at h
    · split at h
      · exact absurd h (by simp)
      · injection h with h
        subst h
        rfl
    · injection h with h
      subst h
      rfl

lemma classify_updates_update (reqs : List String) (data : Dict) (s m : String)
    (hs : dget data "status" = some s)
    (hu : s = "update" ∨ s = "upgrade") (hm : dget data "status_msg" = some m) :
    classify_updates reqs data =
      some (reqs,
        (if dget data "status_reboot" == some "1" then CheckState.CRITICAL
         else CheckState.WARNING), m) := by
  rcases hu with hu | hu <;> subst hu <;> simp [classify_updates, hs, hm]

lemma classify_updates_noupdate (reqs : List String) (data : Dict) (s : String)
    (hs : dget data "status" = some s)
    (h1 : s ≠ "update") (h2 : s ≠ "upgrade") :
    classify_updates reqs data = some (reqs, CheckState.OK, "System up to date") := by
  simp [classify_updates, hs, h1, h2]

lemma check_updates_first (first refreshed : Dict) (s0 : String)
    (h0 : dget first "status" = some s0) (hs0 : s0 ≠ "none") :
    check_updates first refreshed = classify_updates ["get"] first := by
  simp [check_updates, h0, hs0]

lemma check_updates_refresh (first refreshed : Dict)
    (h0 : dget first "status" = some "none") :
    check_updates first refreshed = classify_updates ["get", "post"] refreshed := by
  simp [check_updates, h0]

lemma running_partition_length (rows : List ServiceRow) :
    (running_names rows).length + (not_running_names rows).length = rows.length := by
  induction rows with
  | nil => rfl
  | cons r rows ih =>
    by_cases h : r.running == 1 <;>
      simp [running_names, not_running_names, List.filter, h] at ih ⊢ <;> omega

lemma classify_verdict_cases (reqs : List String) (data : Dict) (s : String)
    (hs : dget data "status" = some s) :
    ((s = "update" ∨ s = "upgrade") →
      ∀ m, dget data "status_msg" = some m →
        (dget data "status_reboot" = some "1" →
          (classify_updates reqs data).map Prod.snd = some (CheckState.CRITICAL, m)) ∧
        (dget data "status_reboot" ≠ some "1" →
          (classify_updates reqs data).map Prod.snd = some (CheckState.WARNING, m))) ∧
    ((s ≠ "update" ∧ s ≠ "upgrade") →
      (classify_updates reqs data).map Prod.snd = some (CheckState.OK, "System up to date")) := by
  constructor
  · intro hu m hm
    rw [classify_updates_update reqs data s m hs hu hm]
    constructor
    · intro hr
      simp [hr]
    · intro hr
      have hf : (dget data "status_reboot" == some "1") = false :=
        beq_eq_false_iff_ne.mpr hr
      simp [hf]
  · rintro ⟨h1, h2⟩
    rw [classify_updates_noupdate reqs data s hs h1 h2]
    rfl

/-! ## Claim theorems -/

/-- C4: In updates mode, for every effective payload (after the
optional refresh): status in {"update","upgrade"} with
status_reboot == "1" gives CRITICAL; status in {"update","upgrade"}
with status_reboot != "1" gives WARNING with the payload's status_msg
as message; any other status gives OK with "System up to date". -/
theorem c4_updates_classification
    (first refreshed : Dict) (s0 s : String)
    (h0 : dget first "status" = some s0)
    (hd : dget (if s0 = "none" then refreshed else first) "status" = some s) :
    ((s = "update" ∨ s = "upgrade") →
      ∀ m, dget (if s0 = "none" then refreshed else first) "status_msg" = some m →
        (dget (if s0 = "none" then refreshed else first) "status_reboot" = some "1" →
          check_updates_verdict first refreshed = some (CheckState.CRITICAL, m)) ∧
        (dget (if s0 = "none" then refreshed else first) "status_reboot" ≠ some "1" →
          check_updates_verdict first refreshed = some (CheckState.WARNING, m))) ∧
    ((s ≠ "update" ∧ s ≠ "upgrade") →
      check_updates_verdict first refreshed = some (CheckState.OK, "System up to date")) := by
  by_cases hn : s0 = "none"
  · subst hn
    rw [if_pos rfl] at hd
    simp only [if_pos rfl]
    simp only [check_updates_verdict, check_updates_refresh first refreshed h0]
    exact classify_verdict_cases ["get", "post"] refreshed s hd
  · rw [if_neg hn] at hd
    simp only [if_neg hn]
    simp only [check_updates_verdict, check_updates_first first refreshed s0 h0 hn]
    exact classify_verdict_cases ["get"] first s hd

/-- Witness for C4 at a concrete payload: status "update" with
status_reboot "1" yields CRITICAL with the payload's status_msg. -/
theorem c4_updates_classification_witness :
    check_updates_verdict
      [("status", "update"), ("status_msg", "pkg available"), ("status_reboot", "1")] [] =
      some (CheckState.CRITICAL, "pkg available") :=
  ((c4_updates_classification
      [("status", "update"), ("status_msg", "pkg available"), ("status_reboot", "1")] []
      "update" "update" rfl rfl).1 (Or.inl rfl) "pkg available" rfl).1 rfl

/-- C7: In updates mode, a first payload with status "none" triggers
exactly one refresh (the issued methods are GET then POST) and the
refreshed payload is used; there is no further retry, so a refreshed
status of "none" again yields OK with "System up to date". -/
theorem c7_updates_refresh_once
    (first refreshed : Dict)
    (h0 : dget first "status" = some "none") :
    (∀ r, check_updates first refreshed = some r → r.fst = ["get", "post"]) ∧
    (dget refreshed "status" = some "none" →
      check_updates first refreshed =
        some (["get", "post"], CheckState.OK, "System up to date")) := by
  have he := check_updates_refresh first refreshed h0
  constructor
  · intro r hr
    rw [he] at hr
    exact classify_updates_reqs _ _ _ hr
  · intro h1
    rw [he]
    exact classify_updates_noupdate _ _ "none" h1 (by decide) (by decide)

/-- Witness for C7: both payloads say "none"; the run issues GET then
POST and reports OK, "System up to date". -/
theorem c7_updates_refresh_once_witness :
    check_updates [("status", "none")] [("status", "none")] =
      some (["get", "post"], CheckState.OK, "System up to date") :=
  (c7_updates_refresh_once [("status", "none")] [("status", "none")] rfl).2 rfl

/-- C10: In updates mode, a payload with status in {"update","upgrade"}
but no "status_reboot" key does not crash the classifier: the missing
key behaves like any value other than "1", so the severity is WARNING
(not CRITICAL) with the payload's status_msg. -/
theorem c10_updates_missing_reboot_key
    (first refreshed : Dict) (s0 s m : String)
    (h0 : dget first "status" = some s0)
    (hd : dget (if s0 = "none" then refreshed else first) "status" = some s)
    (hu : s = "update" ∨ s = "upgrade")
    (hr : dget (if s0 = "none" then refreshed else first) "status_reboot" = none)
    (hm : dget (if s0 = "none" then refreshed else first) "status_msg" = some m) :
    check_updates_verdict first refreshed = some (CheckState.WARNING, m) := by
  by_cases hn : s0 = "none"
  · subst hn
    rw [if_pos rfl] at hd hr hm
    simp only [check_updates_verdict, check_updates_refresh first refreshed h0,
      classify_updates_update ["get", "post"] refreshed s m hd hu hm]
    simp [hr]
  · rw [if_neg hn] at hd hr hm
    simp only [check_updates_verdict, check_updates_first first refreshed s0 h0 hn,
      classify_updates_update ["get"] first s m hd hu hm]
    simp [hr]

/-- Witness for C10: payload with status "upgrade" and no
status_reboot key yields WARNING with the status_msg. -/
theorem c10_updates_missing_reboot_key_witness :
    check_updates_verdict [("status", "upgrade"), ("status_msg", "upgrade available")] [] =
      some (CheckState.WARNING, "upgrade available") :=
  c10_updates_missing_reboot_key
    [("status", "upgrade"), ("status_msg", "upgrade available")] []
    "upgrade" "upgrade" "upgrade available" rfl rfl (Or.inr rfl) rfl rfl

/-- C1 (code bug): the claim says system mode reports the mapped
severity ({OK,Notice} -> OK, Warning -> WARNING, Error -> CRITICAL), so
a payload with System.status == "Error" should exit CRITICAL (2).  The
source's line 244 assigns the mapped value to `check_message` instead
of `check_result` and both branches then overwrite `check_message`, so
the run keeps the orchestrator's OK: at the failing payload the mapped
value is CRITICAL yet the verdict is OK with exit code 0. -/
theorem c1_system_error_severity_bug :
    systemStatusMap "Error" = some CheckState.CRITICAL ∧
    check_system [("System", ⟨"Error", some "system breakage detected"⟩)] =
      some (CheckState.OK, "system breakage detected") ∧
    (check_output CheckState.OK "system breakage detected" []).snd = 0 := by
  exact ⟨rfl, rfl, rfl⟩

/-- C2 (code bug): on the payload with rows a(running), b(stopped),
c(running) and total 3 the severity is WARNING with exit code 1 as the
claim says, but line 274's string lacks the `f` prefix, so the message
is the literal un-interpolated brace expression and does not mention
"b" (nor any service name). -/
theorem c2_services_message_bug :
    check_services 3 [⟨"a", 1⟩, ⟨"b", 0⟩, ⟨"c", 1⟩] =
      some (CheckState.WARNING, services_not_running_msg, [services_perf_entry 2 3]) ∧
    isSubstr "b" services_not_running_msg = false ∧
    (check_output CheckState.WARNING services_not_running_msg
      [services_perf_entry 2 3]).snd = 1 := by
  refine ⟨?_, by decide, rfl⟩
  rfl

/-- C3 counterexample: at HTTP status 403 the run does terminate with
UNKNOWN, but the output message ("Access denied. Please check if API
user has sufficient permissions.") does not contain the substring
"insufficient permissions", refuting the claim as stated. -/
theorem c3_counterexample_403_message :
    (httpErrorOutput 403).fst = CheckState.UNKNOWN ∧
    isSubstr "insufficient permissions" (httpErrorOutput 403).snd = false := by
  exact ⟨rfl, by decide⟩

/-- C3 (amended): for every request whose HTTP response has status
code 403, the run terminates with severity UNKNOWN (exit code 3) and
the output message contains the substring "sufficient permissions"
(the source asks to "check if API user has sufficient permissions"). -/
theorem c3_amended_403_sufficient_permissions :
    requestResult 403 ([] : Dict) = Except.error (httpErrorOutput 403) ∧
    (httpErrorOutput 403).fst = CheckState.UNKNOWN ∧
    isSubstr "sufficient permissions" (httpErrorOutput 403).snd = true ∧
    (output (httpErrorOutput 403).fst (httpErrorOutput 403).snd).snd = 3 := by
  exact ⟨rfl, rfl, by decide, rfl⟩

/-- C5: for every severity and message, the process exit status equals
the severity's numeric value (OK=0, WARNING=1, CRITICAL=2, UNKNOWN=3)
and the printed line is the severity name, " - ", and the message. -/
theorem c5_reporter_contract (rc : CheckState) (msg : String) :
    output rc msg = (CheckState.name rc ++ " - " ++ msg, CheckState.value rc) ∧
    CheckState.value CheckState.OK = 0 ∧
    CheckState.value CheckState.WARNING = 1 ∧
    CheckState.value CheckState.CRITICAL = 2 ∧
    CheckState.value CheckState.UNKNOWN = 3 ∧
    CheckState.name CheckState.OK = "OK" ∧
    CheckState.name CheckState.WARNING = "WARNING" ∧
    CheckState.name CheckState.CRITICAL = "CRITICAL" ∧
    CheckState.name CheckState.UNKNOWN = "UNKNOWN" :=
  ⟨rfl, rfl, rfl, rfl, rfl, rfl, rfl, rfl, rfl⟩

/-- Witness for C5 at a concrete severity and message. -/
theorem c5_reporter_contract_witness :
    output CheckState.CRITICAL "msg" = ("CRITICAL - msg", 2) :=
  (c5_reporter_contract CheckState.CRITICAL "msg").1

/-- C6: in services mode, whenever the partition sizes do not sum to
the payload's total, the run aborts (RuntimeError, modelled `none`)
without producing any graded verdict line. -/
theorem c6_services_total_mismatch_aborts
    (total : Int) (rows : List ServiceRow)
    (h : (rows.length : Int) ≠ total) :
    check_services total rows = none := by
  have h' : (((running_names rows).length + (not_running_names rows).length : Nat) : Int)
      ≠ total := by
    rw [running_partition_length]
    exact_mod_cast h
  simp only [check_services]
  rw [if_pos h']

/-- Witness for C6: one row but total 2 aborts with no verdict. -/
theorem c6_services_total_mismatch_aborts_witness :
    check_services 2 [⟨"a", 1⟩] = none :=
  c6_services_total_mismatch_aborts 2 [⟨"a", 1⟩] (by decide)

/-- C8: each of the three caught request exceptions terminates the run
with severity UNKNOWN and a message containing, respectively,
"Connection timeout", "Certificate validation failed", and
"Failed to resolve hostname"; the model issues no retry (the handler
maps one exception directly to one terminal output). -/
theorem c8_request_exception_mapping :
    (∀ e : ReqError, (exceptionOutput e).fst = CheckState.UNKNOWN) ∧
    isSubstr "Connection timeout" (exceptionOutput ReqError.connectTimeout).snd = true ∧
    isSubstr "Certificate validation failed" (exceptionOutput ReqError.sslError).snd = true ∧
    isSubstr "Failed to resolve hostname" (exceptionOutput ReqError.connectionError).snd
      = true := by
  refine ⟨fun e => ?_, by decide, by decide, by decide⟩
  cases e <;> rfl

/-- C9: in services mode, every payload passing the consistency check
emits exactly one perfdata entry, whose value is the number of rows
with running == 1, whose minimum is 0 and whose maximum is the
payload's total (rendered `'running'=<count>;;;0;<total>`). -/
theorem c9_services_perf_metric
    (total : Int) (rows : List ServiceRow)
    (h : (rows.length : Int) = total) :
    ∃ rc msg, check_services total rows =
      some (rc, msg,
        [services_perf_entry ((rows.filter (fun r => r.running == 1)).length) total]) := by
  have h' : ¬ ((((running_names rows).length + (not_running_names rows).length : Nat) : Int)
      ≠ total) := by
    rw [running_partition_length]
    exact not_ne_iff.mpr (by exact_mod_cast h)
  have hlen : (running_names rows).length = (rows.filter (fun r => r.running == 1)).length := by
    simp [running_names]
  simp only [check_services]
  rw [if_neg h', hlen]
  by_cases hnr : (!(not_running_names rows).isEmpty) = true
  · rw [if_pos hnr]
    exact ⟨_, _, rfl⟩
  · rw [if_neg hnr]
    exact ⟨_, _, rfl⟩

/-- Witness for C9 at the three-row payload: the single metric is
`'running'=2;;;0;3`. -/
theorem c9_services_perf_metric_witness :
    ∃ rc msg, check_services 3 [⟨"a", 1⟩, ⟨"b", 0⟩, ⟨"c", 1⟩] =
      some (rc, msg, [services_perf_entry 2 3]) :=
  c9_services_perf_metric 3 [⟨"a", 1⟩, ⟨"b", 0⟩, ⟨"c", 1⟩] (by decide)
